import Mathlib

/-!
Verification of the oflow local command-channel client.

This file shallowly embeds the socket client of
src/oflow-ui/src-tauri/src/socket_client.rs, the error type of
src/omarchyflow-ui/src-tauri/src/error.rs, and the Tauri command handlers
(start_recording, stop_recording, toggle_recording, get_recording_status)
of src/oflow-ui/src-tauri/src/lib.rs (the omarchyflow-ui handlers are
line-for-line the same logic).

The outcome of each OS-level step (socket-file existence, connect, write,
flush) is abstracted into a SocketEnv record supplied by the environment;
each embedded operation returns, next to its result, the list of channel
actions it performed, so that statements such as "no connection attempt is
made" are expressible as facts about the returned trace.
-/

namespace Oflow

/-- Outcome the environment gives to one timed OS step (connect, write or
flush): the timeout wrapper elapsed, the step finished with an OS error
carrying a message, or the step succeeded. Mirrors the three cases of
tokio timeout(..) around a fallible async call. -/
inductive StepOutcome where
  | timeout
  | ioError (msg : String)
  | ok
deriving DecidableEq

/-- Environment of one call: whether the socket file exists, and the
outcome of the connect, write and flush steps, were they attempted. -/
structure SocketEnv where
  socketExists : Bool
  connect : StepOutcome
  write : StepOutcome
  flush : StepOutcome
deriving DecidableEq

/-- One observable channel action, recorded in order. Timed actions carry
the timeout in milliseconds that the code wraps them in. -/
inductive ChannelAction where
  | checkExists
  | connectAttempt (timeoutMs : Nat)
  | writeBytes (timeoutMs : Nat) (bytes : String)
  | flushConn (timeoutMs : Nat)
deriving DecidableEq

/-- The timeout an action was wrapped in, if it is a timed action. -/
def actionTimeout : ChannelAction → Option Nat
  | ChannelAction.checkExists => none
  | ChannelAction.connectAttempt ms => some ms
  | ChannelAction.writeBytes ms _ => some ms
  | ChannelAction.flushConn ms => some ms

/-- Whether the action is a connection attempt. -/
def ChannelAction.isConnect : ChannelAction → Bool
  | ChannelAction.connectAttempt _ => true
  | _ => false

/-- The bytes written to the connection by a trace of channel actions. -/
def writesOf (tr : List ChannelAction) : List String :=
  tr.filterMap fun a =>
    match a with
    | ChannelAction.writeBytes _ b => some b
    | _ => none

/-- SocketError of src/omarchyflow-ui/src-tauri/src/error.rs. -/
inductive SocketError where
  | ConnectionFailed (msg : String)
  | SendFailed (msg : String)
  | ReadFailed (msg : String)
  | BackendNotRunning
  | InvalidCommand (msg : String)
deriving DecidableEq

/-- Display strings of SocketError, from the thiserror error attributes in
src/omarchyflow-ui/src-tauri/src/error.rs. -/
def SocketError.display : SocketError → String
  | SocketError.ConnectionFailed m => "Failed to connect to backend: " ++ m
  | SocketError.SendFailed m => "Failed to send command: " ++ m
  | SocketError.ReadFailed m => "Failed to read response: " ++ m
  | SocketError.BackendNotRunning => "Backend is not running or not responding"
  | SocketError.InvalidCommand m => "Invalid command: " ++ m

/-- SOCKET_PATH constant of socket_client.rs. -/
def SOCKET_PATH : String := "/tmp/voice-dictation.sock"

/-- SOCKET_TIMEOUT constant of socket_client.rs (2 seconds), in ms. -/
def SOCKET_TIMEOUT_MS : Nat := 2000

/-- The 500 ms probe timeout used by is_backend_running. -/
def PROBE_TIMEOUT_MS : Nat := 500

/-- The validation test of send_command:
matches!(command, "start" | "stop" | "toggle"). -/
def validCommandB (command : String) : Bool :=
  command == "start" || command == "stop" || command == "toggle"

/-- send_command of src/oflow-ui/src-tauri/src/socket_client.rs: validate
the command, check the socket file exists, connect, write the command
bytes, flush, each of the three timed steps under SOCKET_TIMEOUT; returns
the result together with the channel actions performed. -/
def send_command (env : SocketEnv) (command : String) :
    Except SocketError Unit × List ChannelAction :=
  if !validCommandB command then
    (Except.error (SocketError.InvalidCommand
      ("Invalid command: " ++ command ++
        ". Must be \x27start\x27, \x27stop\x27, or \x27toggle\x27")), [])
  else if !env.socketExists then
    (Except.error SocketError.BackendNotRunning, [ChannelAction.checkExists])
  else
    match env.connect with
    | StepOutcome.timeout =>
        (Except.error (SocketError.ConnectionFailed "Connection timeout"),
         [ChannelAction.checkExists, ChannelAction.connectAttempt SOCKET_TIMEOUT_MS])
    | StepOutcome.ioError e =>
        (Except.error (SocketError.ConnectionFailed e),
         [ChannelAction.checkExists, ChannelAction.connectAttempt SOCKET_TIMEOUT_MS])
    | StepOutcome.ok =>
        match env.write with
        | StepOutcome.timeout =>
            (Except.error (SocketError.SendFailed "Send timeout"),
             [ChannelAction.checkExists, ChannelAction.connectAttempt SOCKET_TIMEOUT_MS,
              ChannelAction.writeBytes SOCKET_TIMEOUT_MS command])
        | StepOutcome.ioError e =>
            (Except.error (SocketError.SendFailed e),
             [ChannelAction.checkExists, ChannelAction.connectAttempt SOCKET_TIMEOUT_MS,
              ChannelAction.writeBytes SOCKET_TIMEOUT_MS command])
        | StepOutcome.ok =>
            match env.flush with
            | StepOutcome.timeout =>
                (Except.error (SocketError.SendFailed "Flush timeout"),
                 [ChannelAction.checkExists, ChannelAction.connectAttempt SOCKET_TIMEOUT_MS,
                  ChannelAction.writeBytes SOCKET_TIMEOUT_MS command,
                  ChannelAction.flushConn SOCKET_TIMEOUT_MS])
            | StepOutcome.ioError e =>
                (Except.error (SocketError.SendFailed e),
                 [ChannelAction.checkExists, ChannelAction.connectAttempt SOCKET_TIMEOUT_MS,
                  ChannelAction.writeBytes SOCKET_TIMEOUT_MS command,
                  ChannelAction.flushConn SOCKET_TIMEOUT_MS])
            | StepOutcome.ok =>
                (Except.ok (),
                 [ChannelAction.checkExists, ChannelAction.connectAttempt SOCKET_TIMEOUT_MS,
                  ChannelAction.writeBytes SOCKET_TIMEOUT_MS command,
                  ChannelAction.flushConn SOCKET_TIMEOUT_MS])

/-- is_backend_running of socket_client.rs: false when the socket file is
absent; otherwise attempt a connection under a 500 ms timeout and return
whether it succeeded (timeout and refusal both give false). -/
def is_backend_running (env : SocketEnv) : Bool × List ChannelAction :=
  if !env.socketExists then
    (false, [ChannelAction.checkExists])
  else
    match env.connect with
    | StepOutcome.timeout =>
        (false, [ChannelAction.checkExists, ChannelAction.connectAttempt PROBE_TIMEOUT_MS])
    | StepOutcome.ioError _ =>
        (false, [ChannelAction.checkExists, ChannelAction.connectAttempt PROBE_TIMEOUT_MS])
    | StepOutcome.ok =>
        (true, [ChannelAction.checkExists, ChannelAction.connectAttempt PROBE_TIMEOUT_MS])

/-- AppState of src/oflow-ui/src-tauri/src/lib.rs. -/
structure AppState where
  is_recording : Bool
  current_shortcut : String
deriving DecidableEq

/-- Default AppState (is_recording false, DEFAULT_SHORTCUT). -/
def initState : AppState :=
  { is_recording := false, current_shortcut := "XF86Assistant" }

/-- A top-level observable event of a Tauri command handler: acquiring or
releasing the shared-state mutex, or a channel action of send_command. -/
inductive Event where
  | lockAcquire
  | lockRelease
  | chan (a : ChannelAction)
deriving DecidableEq

/-- The bytes written to the connection during a list of events. -/
def sentWrites (evs : List Event) : List String :=
  evs.filterMap fun e =>
    match e with
    | Event.chan (ChannelAction.writeBytes _ b) => some b
    | _ => none

/-- toggle_recording of src/oflow-ui/src-tauri/src/lib.rs lines 134-151:
lock the state, choose "stop" when currently recording and "start"
otherwise, send it, and only on success flip the stored flag and return
its new value; on failure return the formatted error and leave the state
as it was. The lock is held across the send, hence the lockAcquire and
lockRelease events bracketing the channel actions. -/
def toggle_recording (env : SocketEnv) (st : AppState) :
    Except String Bool × AppState × List Event :=
  let command := if st.is_recording then "stop" else "start"
  let r := send_command env command
  let evs := Event.lockAcquire :: (r.snd.map Event.chan ++ [Event.lockRelease])
  match r.fst with
  | Except.error e =>
      (Except.error ("Failed to toggle recording: " ++ e.display), st, evs)
  | Except.ok _ =>
      (Except.ok (!st.is_recording),
       { st with is_recording := !st.is_recording }, evs)

/-- start_recording of src/oflow-ui/src-tauri/src/lib.rs lines 106-112:
sends "start" and formats any error; the Rust handler takes no state
handle at all, so the embedding threads the AppState through unchanged
and emits no lock event. -/
def start_recording (env : SocketEnv) (st : AppState) :
    Except String Unit × AppState × List Event :=
  let r := send_command env "start"
  match r.fst with
  | Except.error e =>
      (Except.error ("Failed to start recording: " ++ e.display), st,
       r.snd.map Event.chan)
  | Except.ok _ => (Except.ok (), st, r.snd.map Event.chan)

/-- stop_recording of src/oflow-ui/src-tauri/src/lib.rs lines 119-125
(identical in src/omarchyflow-ui/src-tauri/src/lib.rs lines 35-41):
sends "stop" and formats any error; takes no state handle, so the
embedding threads the AppState through unchanged with no lock event. -/
def stop_recording (env : SocketEnv) (st : AppState) :
    Except String Unit × AppState × List Event :=
  let r := send_command env "stop"
  match r.fst with
  | Except.error e =>
      (Except.error ("Failed to stop recording: " ++ e.display), st,
       r.snd.map Event.chan)
  | Except.ok _ => (Except.ok (), st, r.snd.map Event.chan)

/-- get_recording_status of src/oflow-ui/src-tauri/src/lib.rs lines
159-165: returns the stored flag without channel I/O. -/
def get_recording_status (st : AppState) : Bool :=
  st.is_recording

/-- An environment in which every step succeeds: socket file present,
connect, write and flush all succeed (a responsive backend). -/
def responsive (env : SocketEnv) : Prop :=
  env.socketExists = true ∧ env.connect = StepOutcome.ok ∧
    env.write = StepOutcome.ok ∧ env.flush = StepOutcome.ok

/-- Fully successful concrete environment. -/
def okEnv : SocketEnv :=
  { socketExists := true, connect := StepOutcome.ok,
    write := StepOutcome.ok, flush := StepOutcome.ok }

/-- Concrete environment with no socket file. -/
def deadEnv : SocketEnv :=
  { socketExists := false, connect := StepOutcome.ok,
    write := StepOutcome.ok, flush := StepOutcome.ok }

/-- Concrete environment whose connect step is refused by the OS. -/
def refusedEnv : SocketEnv :=
  { socketExists := true, connect := StepOutcome.ioError "Connection refused",
    write := StepOutcome.ok, flush := StepOutcome.ok }

/-- Concrete environment whose write step fails. -/
def writeFailEnv : SocketEnv :=
  { socketExists := true, connect := StepOutcome.ok,
    write := StepOutcome.ioError "Broken pipe", flush := StepOutcome.ok }

/-- The error message produced for an invalid command token. -/
def invalidMsg (cmd : String) : String :=
  "Invalid command: " ++ cmd ++ ". Must be \x27start\x27, \x27stop\x27, or \x27toggle\x27"

lemma writesOf_send_command (env : SocketEnv) (cmd : String) :
    writesOf (send_command env cmd).snd = [] ∨
      writesOf (send_command env cmd).snd = [cmd] := by
  rcases env with ⟨se, c, w, f⟩
  cases hv : validCommandB cmd
  · left
    simp [send_command, hv, writesOf]
  · cases se
    · left
      simp [send_command, hv, writesOf]
    · cases c <;> cases w <;> cases f <;> simp [send_command, hv, writesOf]

lemma sentWrites_lock_events (tr : List ChannelAction) :
    sentWrites (Event.lockAcquire :: (tr.map Event.chan ++ [Event.lockRelease])) =
      writesOf tr := by
  induction tr with
  | nil => rfl
  | cons a l ih => cases a <;> simp_all [sentWrites, writesOf]

lemma toggle_recording_events (env : SocketEnv) (st : AppState) :
    (toggle_recording env st).2.2 =
      Event.lockAcquire ::
        ((send_command env (if st.is_recording then "stop" else "start")).snd.map Event.chan
          ++ [Event.lockRelease]) := by
  simp only [toggle_recording]
  rcases h : send_command env (if st.is_recording then "stop" else "start") with ⟨res, tr⟩
  cases res <;> rfl

/-- C1: for every input string that is not one of the three allowed
tokens, send_command returns the InvalidCommand error with an empty
channel-action trace (no existence check, no connection attempt, no
write), and the whole result is independent of the environment. -/
theorem send_command_invalid_no_channel_io (env env2 : SocketEnv) (cmd : String)
    (h : validCommandB cmd = false) :
    send_command env cmd =
      (Except.error (SocketError.InvalidCommand (invalidMsg cmd)), []) ∧
    send_command env cmd = send_command env2 cmd := by
  constructor <;> simp [send_command, h, invalidMsg]

/-- C1 witness: the invalid command "foo" yields InvalidCommand with no
channel actions, identically on an environment with no socket file and on
a fully live one. -/
theorem send_command_invalid_no_channel_io_witness :
    send_command deadEnv "foo" =
      (Except.error (SocketError.InvalidCommand (invalidMsg "foo")), []) ∧
    send_command deadEnv "foo" = send_command okEnv "foo" :=
  send_command_invalid_no_channel_io deadEnv okEnv "foo" rfl

/-- C4 counterexample: against a fully live backend, send_command given
the token "toggle" succeeds and writes the bytes "toggle" to the
connection, refuting the claim that "toggle" as a wire value is rejected
and never written. -/
theorem send_command_toggle_written_counterexample :
    (send_command okEnv "toggle").fst = Except.ok () ∧
    writesOf (send_command okEnv "toggle").snd = ["toggle"] := by
  constructor <;> rfl

/-- C4 amended: send_command transmits at most the validated token itself
verbatim, "toggle" included; the Tracker in turn only ever hands "start"
or "stop" to send_command, so under Tracker-driven operation only those
two tokens reach the wire. -/
theorem send_command_writes_validated_token (env : SocketEnv) (cmd : String)
    (st : AppState) :
    (writesOf (send_command env cmd).snd = [] ∨
      writesOf (send_command env cmd).snd = [cmd]) ∧
    (sentWrites (toggle_recording env st).2.2 = [] ∨
      sentWrites (toggle_recording env st).2.2 =
        [if st.is_recording then "stop" else "start"]) ∧
    ((if st.is_recording then "stop" else "start") = "start" ∨
      (if st.is_recording then "stop" else "start") = "stop") := by
  refine ⟨writesOf_send_command env cmd, ?_, ?_⟩
  · rw [toggle_recording_events, sentWrites_lock_events]
    exact writesOf_send_command env (if st.is_recording then "stop" else "start")
  · cases h : st.is_recording <;> simp

/-- C9: every result of send_command is Ok, InvalidCommand,
BackendNotRunning, ConnectionFailed or SendFailed; in particular the
ReadFailed variant of SocketError is never produced, matching the
fire-and-forget protocol in which nothing is ever read. -/
theorem send_command_result_taxonomy (env : SocketEnv) (cmd : String) :
    (send_command env cmd).fst = Except.ok () ∨
    (∃ m, (send_command env cmd).fst = Except.error (SocketError.InvalidCommand m)) ∨
    (send_command env cmd).fst = Except.error SocketError.BackendNotRunning ∨
    (∃ m, (send_command env cmd).fst = Except.error (SocketError.ConnectionFailed m)) ∨
    (∃ m, (send_command env cmd).fst = Except.error (SocketError.SendFailed m)) := by
  rcases env with ⟨se, c, w, f⟩
  cases hv : validCommandB cmd
  · exact Or.inr (Or.inl ⟨invalidMsg cmd, by simp [send_command, hv, invalidMsg]⟩)
  · cases se
    · exact Or.inr (Or.inr (Or.inl (by simp [send_command, hv])))
    · cases c with
      | timeout =>
          exact Or.inr (Or.inr (Or.inr (Or.inl
            ⟨"Connection timeout", by simp [send_command, hv]⟩)))
      | ioError m =>
          exact Or.inr (Or.inr (Or.inr (Or.inl ⟨m, by simp [send_command, hv]⟩)))
      | ok =>
          cases w with
          | timeout =>
              exact Or.inr (Or.inr (Or.inr (Or.inr
                ⟨"Send timeout", by simp [send_command, hv]⟩)))
          | ioError m =>
              exact Or.inr (Or.inr (Or.inr (Or.inr ⟨m, by simp [send_command, hv]⟩)))
          | ok =>
              cases f with
              | timeout =>
                  exact Or.inr (Or.inr (Or.inr (Or.inr
                    ⟨"Flush timeout", by simp [send_command, hv]⟩)))
              | ioError m =>
                  exact Or.inr (Or.inr (Or.inr (Or.inr ⟨m, by simp [send_command, hv]⟩)))
              | ok => exact Or.inl (by simp [send_command, hv])

lemma toggle_recording_responsive (env : SocketEnv) (h : responsive env)
    (st : AppState) :
    toggle_recording env st =
      (Except.ok (!st.is_recording),
       { st with is_recording := !st.is_recording },
       [Event.lockAcquire,
        Event.chan ChannelAction.checkExists,
        Event.chan (ChannelAction.connectAttempt SOCKET_TIMEOUT_MS),
        Event.chan (ChannelAction.writeBytes SOCKET_TIMEOUT_MS
          (if st.is_recording then "stop" else "start")),
        Event.chan (ChannelAction.flushConn SOCKET_TIMEOUT_MS),
        Event.lockRelease]) := by
  obtain ⟨he, hc, hw, hf⟩ := h
  cases hb : st.is_recording <;>
    simp [toggle_recording, send_command, validCommandB, he, hc, hw, hf, hb]

/-- C2: toggle reads the belief, sends "stop" when it is true and "start"
when false; on a successful send it flips the stored belief and returns
the new value; and from belief false against an accepting backend the
first call returns Ok true with belief now true, while the second call
sends "stop" and returns Ok false. -/
theorem toggle_recording_flips_on_success (env : SocketEnv) (st : AppState)
    (h : responsive env) :
    (toggle_recording env st).1 = Except.ok (!st.is_recording) ∧
    (toggle_recording env st).2.1.is_recording = !st.is_recording ∧
    sentWrites (toggle_recording env st).2.2 =
      [if st.is_recording then "stop" else "start"] ∧
    (st.is_recording = false →
      (toggle_recording env st).1 = Except.ok true ∧
      (toggle_recording env st).2.1.is_recording = true ∧
      sentWrites (toggle_recording env (toggle_recording env st).2.1).2.2 = ["stop"] ∧
      (toggle_recording env (toggle_recording env st).2.1).1 = Except.ok false) := by
  have t1 := toggle_recording_responsive env h st
  have t2 := toggle_recording_responsive env h
    { st with is_recording := !st.is_recording }
  refine ⟨by rw [t1], by rw [t1], ?_, ?_⟩
  · rw [t1]
    cases hb : st.is_recording <;> rfl
  · intro hb
    simp only [t1, Prod.snd, Prod.fst] at t2 ⊢
    rw [t2]
    simp [hb, sentWrites]

/-- C3: whenever send_command fails with any error, toggle returns that
error formatted with the "Failed to toggle recording" prefix and the
AppState, the recording belief included, is exactly what it was before
the call. -/
theorem toggle_recording_error_preserves_belief (env : SocketEnv) (st : AppState)
    (e : SocketError)
    (h : (send_command env (if st.is_recording then "stop" else "start")).fst =
      Except.error e) :
    (toggle_recording env st).1 =
      Except.error ("Failed to toggle recording: " ++ e.display) ∧
    (toggle_recording env st).2.1 = st := by
  simp only [toggle_recording]
  rcases hsc : send_command env (if st.is_recording then "stop" else "start")
    with ⟨res, tr⟩
  rw [hsc] at h
  simp only [Prod.fst] at h
  subst h
  exact ⟨rfl, rfl⟩

/-- C3 witness: with no socket file and belief false, toggle returns the
formatted BackendNotRunning error and the state is unchanged. -/
theorem toggle_recording_error_preserves_belief_witness :
    (toggle_recording deadEnv initState).1 =
      Except.error ("Failed to toggle recording: " ++
        SocketError.BackendNotRunning.display) ∧
    (toggle_recording deadEnv initState).2.1 = initState :=
  toggle_recording_error_preserves_belief deadEnv initState
    SocketError.BackendNotRunning rfl

/-- C5: when the socket file is absent, is_backend_running returns false
and send_command (on a valid command) returns BackendNotRunning, in both
cases with a trace holding only the existence check: no connection
attempt and hence no timed wait occurs. -/
theorem backend_absent_fail_fast (env : SocketEnv) (cmd : String)
    (hno : env.socketExists = false) (hcmd : validCommandB cmd = true) :
    is_backend_running env = (false, [ChannelAction.checkExists]) ∧
    send_command env cmd =
      (Except.error SocketError.BackendNotRunning, [ChannelAction.checkExists]) ∧
    ((is_backend_running env).snd.any ChannelAction.isConnect) = false ∧
    ((send_command env cmd).snd.any ChannelAction.isConnect) = false := by
  have h1 : is_backend_running env = (false, [ChannelAction.checkExists]) := by
    simp [is_backend_running, hno]
  have h2 : send_command env cmd =
      (Except.error SocketError.BackendNotRunning, [ChannelAction.checkExists]) := by
    simp [send_command, hcmd, hno]
  refine ⟨h1, h2, ?_, ?_⟩
  · rw [h1]
    rfl
  · rw [h2]
    rfl

/-- C5 witness: concrete absent-socket environment with command "start". -/
theorem backend_absent_fail_fast_witness :
    is_backend_running deadEnv = (false, [ChannelAction.checkExists]) ∧
    send_command deadEnv "start" =
      (Except.error SocketError.BackendNotRunning, [ChannelAction.checkExists]) ∧
    ((is_backend_running deadEnv).snd.any ChannelAction.isConnect) = false ∧
    ((send_command deadEnv "start").snd.any ChannelAction.isConnect) = false :=
  backend_absent_fail_fast deadEnv "start" rfl rfl

/-- C6: the probe returns false with only the existence check when the
socket file is absent; otherwise it performs one connection attempt under
the 500 ms timeout and returns true exactly when the connect step
succeeds (timeout and refusal both give false); it never writes any
bytes. -/
theorem is_backend_running_probe_algorithm (env : SocketEnv) :
    (env.socketExists = false →
      is_backend_running env = (false, [ChannelAction.checkExists])) ∧
    (env.socketExists = true →
      (is_backend_running env).snd =
        [ChannelAction.checkExists, ChannelAction.connectAttempt PROBE_TIMEOUT_MS] ∧
      (is_backend_running env).fst = (env.connect == StepOutcome.ok)) ∧
    writesOf (is_backend_running env).snd = [] := by
  refine ⟨?_, ?_, ?_⟩
  · intro hno
    simp [is_backend_running, hno]
  · intro hyes
    cases hc : env.connect <;> simp [is_backend_running, hyes, hc]
  · rcases env with ⟨se, c, w, f⟩
    cases se <;> cases c <;> simp [is_backend_running, writesOf]

/-- C6 witness: the absent-socket case and the live-listener case at
concrete environments. -/
theorem is_backend_running_probe_algorithm_witness :
    is_backend_running deadEnv = (false, [ChannelAction.checkExists]) ∧
    ((is_backend_running okEnv).snd =
      [ChannelAction.checkExists, ChannelAction.connectAttempt PROBE_TIMEOUT_MS] ∧
    (is_backend_running okEnv).fst = (okEnv.connect == StepOutcome.ok)) :=
  ⟨(is_backend_running_probe_algorithm deadEnv).1 rfl,
   (is_backend_running_probe_algorithm okEnv).2.1 rfl⟩

/-- C7: with a valid command and the socket file present, the result of
send_command is classified exactly by the first failing step: connect
timeout or refusal give ConnectionFailed with its cause string, write or
flush timeout or error give SendFailed, and all succeeding gives Ok;
every timed action in the trace is wrapped in the fixed 2000 ms timeout. -/
theorem send_command_error_classification (env : SocketEnv) (cmd : String)
    (hcmd : validCommandB cmd = true) (hex : env.socketExists = true) :
    (send_command env cmd).fst =
      (match env.connect, env.write, env.flush with
       | StepOutcome.timeout, _, _ =>
           Except.error (SocketError.ConnectionFailed "Connection timeout")
       | StepOutcome.ioError m, _, _ =>
           Except.error (SocketError.ConnectionFailed m)
       | StepOutcome.ok, StepOutcome.timeout, _ =>
           Except.error (SocketError.SendFailed "Send timeout")
       | StepOutcome.ok, StepOutcome.ioError m, _ =>
           Except.error (SocketError.SendFailed m)
       | StepOutcome.ok, StepOutcome.ok, StepOutcome.timeout =>
           Except.error (SocketError.SendFailed "Flush timeout")
       | StepOutcome.ok, StepOutcome.ok, StepOutcome.ioError m =>
           Except.error (SocketError.SendFailed m)
       | StepOutcome.ok, StepOutcome.ok, StepOutcome.ok => Except.ok ()) ∧
    ((send_command env cmd).snd.all
      (fun a => actionTimeout a == none ||
        actionTimeout a == some SOCKET_TIMEOUT_MS)) = true := by
  cases hc : env.connect <;> cases hw : env.write <;> cases hf : env.flush <;>
    simp [send_command, hcmd, hex, hc, hw, hf, actionTimeout]

/-- C7 witness: a refused connect maps to ConnectionFailed with its cause
string, a failed write maps to SendFailed with its cause string, and the
trace only uses the 2000 ms timeout. -/
theorem send_command_error_classification_witness :
    (send_command refusedEnv "start").fst =
      Except.error (SocketError.ConnectionFailed "Connection refused") ∧
    (send_command writeFailEnv "stop").fst =
      Except.error (SocketError.SendFailed "Broken pipe") ∧
    ((send_command refusedEnv "start").snd.all
      (fun a => actionTimeout a == none ||
        actionTimeout a == some SOCKET_TIMEOUT_MS)) = true := by
  have h1 := send_command_error_classification refusedEnv "start" rfl rfl
  have h2 := send_command_error_classification writeFailEnv "stop" rfl rfl
  exact ⟨h1.1, h2.1, h1.2⟩

lemma map_chan_no_lock (tr : List ChannelAction) :
    ((tr.map Event.chan).contains Event.lockAcquire) = false := by
  induction tr with
  | nil => rfl
  | cons a l ih =>
    have hne : (Event.lockAcquire == Event.chan a) = false := rfl
    simp only [List.map_cons, List.contains_cons, hne, ih, Bool.false_or]

/-- C10: start_recording and stop_recording call the Command Sender
directly: they leave the AppState unchanged, get_recording_status returns
the same value after them as before, and their event traces contain no
lock acquisition; only toggle mutates the belief. -/
theorem start_stop_recording_frame (env : SocketEnv) (st : AppState) :
    (start_recording env st).2.1 = st ∧
    (stop_recording env st).2.1 = st ∧
    get_recording_status (start_recording env st).2.1 = get_recording_status st ∧
    get_recording_status (stop_recording env st).2.1 = get_recording_status st ∧
    ((start_recording env st).2.2.contains Event.lockAcquire) = false ∧
    ((stop_recording env st).2.2.contains Event.lockAcquire) = false := by
  have hstart : (start_recording env st).2.1 = st ∧
      (start_recording env st).2.2 = (send_command env "start").snd.map Event.chan := by
    simp only [start_recording]
    rcases h : send_command env "start" with ⟨res, tr⟩
    cases res <;> simp
  have hstop : (stop_recording env st).2.1 = st ∧
      (stop_recording env st).2.2 = (send_command env "stop").snd.map Event.chan := by
    simp only [stop_recording]
    rcases h : send_command env "stop" with ⟨res, tr⟩
    cases res <;> simp
  refine ⟨hstart.1, hstop.1, by rw [hstart.1], by rw [hstop.1], ?_, ?_⟩
  · rw [hstart.2]
    exact map_chan_no_lock _
  · rw [hstop.2]
    exact map_chan_no_lock _

/-- n serialized toggle calls: the mutex in toggle_recording is held
across the whole read-send-update body, so any concurrent execution of n
toggle calls runs as this sequential composition, in some order; all
calls run the same body, so every order gives this same trace. Returns
the final state and the commands written to the wire, in order. -/
def toggleSeq (env : SocketEnv) : AppState → Nat → AppState × List String
  | st, 0 => (st, [])
  | st, n+1 =>
    let r := toggle_recording env st
    let rest := toggleSeq env r.2.1 n
    (rest.1, sentWrites r.2.2 ++ rest.2)

/-- Expected command sequence from the claim: starting from belief b the
commands alternate, "stop" when the belief is true and "start" when it is
false, the belief flipping after each send. Spec-side definition used to
compare the code trace against. -/
def altCommands : Bool → Nat → List String
  | _, 0 => []
  | b, n+1 => (if b then "stop" else "start") :: altCommands (!b) n

lemma altCommands_length : ∀ (n : Nat) (b : Bool), (altCommands b n).length = n
  | 0, _ => rfl
  | n+1, b => by simp [altCommands, altCommands_length n]

lemma altCommands_chain : ∀ (n : Nat) (b : Bool),
    List.Chain' (fun a c => a ≠ c) (altCommands b n)
  | 0, _ => List.chain'_nil
  | 1, b => by cases b <;> exact List.chain'_singleton _
  | (n+2), b => by
    have ih := altCommands_chain (n+1) (!b)
    have h2 : altCommands b (n+2) =
        (if b then "stop" else "start") :: altCommands (!b) (n+1) := rfl
    have h3 : altCommands (!b) (n+1) =
        (if !b then "stop" else "start") :: altCommands (!(!b)) n := rfl
    rw [h2, h3]
    refine List.chain'_cons.mpr ⟨?_, ?_⟩
    · cases b <;> decide
    · rw [← h3]
      exact ih

lemma xor_not_parity (b : Bool) (n : Nat) :
    Bool.xor (!b) (decide (n % 2 = 1)) = Bool.xor b (decide ((n+1) % 2 = 1)) := by
  rcases Nat.mod_two_eq_zero_or_one n with h | h
  · have h1 : (n+1) % 2 = 1 := by omega
    rw [h, h1]
    cases b <;> rfl
  · have h1 : (n+1) % 2 = 0 := by omega
    rw [h, h1]
    cases b <;> rfl

lemma toggleSeq_responsive (env : SocketEnv) (h : responsive env) :
    ∀ (n : Nat) (st : AppState),
      toggleSeq env st n =
        ({ st with is_recording := Bool.xor st.is_recording (decide (n % 2 = 1)) },
         altCommands st.is_recording n) := by
  intro n
  induction n with
  | zero =>
    intro st
    simp [toggleSeq, altCommands]
  | succ n ih =>
    intro st
    have ht := toggle_recording_responsive env h st
    have hx := xor_not_parity st.is_recording n
    simp only [toggleSeq, ht, ih]
    cases hb : st.is_recording <;> simp_all [sentWrites, altCommands]

/-- C8: toggle calls execute serially through the single mutex held
across the send, so n entries against a responsive backend produce
exactly n sent commands which follow the belief sequence (the expected
alternating sequence from the starting belief), never repeat
consecutively, and leave the belief equal to the starting belief flipped
n times. -/
theorem toggle_serialized_alternation (env : SocketEnv) (st : AppState) (n : Nat)
    (h : responsive env) :
    (toggleSeq env st n).snd = altCommands st.is_recording n ∧
    (toggleSeq env st n).snd.length = n ∧
    List.Chain' (fun a c => a ≠ c) (toggleSeq env st n).snd ∧
    (toggleSeq env st n).fst.is_recording =
      Bool.xor st.is_recording (decide (n % 2 = 1)) := by
  have ht := toggleSeq_responsive env h n st
  refine ⟨?_, ?_, ?_, ?_⟩
  · rw [ht]
  · rw [ht]
    exact altCommands_length n st.is_recording
  · rw [ht]
    exact altCommands_chain n st.is_recording
  · rw [ht]

/-- C8 witness: three serialized toggles from the initial state against
the fully live environment. -/
theorem toggle_serialized_alternation_witness :
    (toggleSeq okEnv initState 3).snd = altCommands initState.is_recording 3 ∧
    (toggleSeq okEnv initState 3).snd.length = 3 ∧
    List.Chain' (fun a c => a ≠ c) (toggleSeq okEnv initState 3).snd ∧
    (toggleSeq okEnv initState 3).fst.is_recording =
      Bool.xor initState.is_recording (decide (3 % 2 = 1)) :=
  toggle_serialized_alternation okEnv initState 3 ⟨rfl, rfl, rfl, rfl⟩

/-- C2 witness: from the initial state (belief false) against the fully
live environment, the first toggle returns Ok true with belief true, and
the second sends "stop" and returns Ok false. -/
theorem toggle_recording_flips_on_success_witness :
    (toggle_recording okEnv initState).1 = Except.ok true ∧
    (toggle_recording okEnv initState).2.1.is_recording = true ∧
    sentWrites (toggle_recording okEnv
      (toggle_recording okEnv initState).2.1).2.2 = ["stop"] ∧
    (toggle_recording okEnv (toggle_recording okEnv initState).2.1).1 =
      Except.ok false :=
  (toggle_recording_flips_on_success okEnv initState ⟨rfl, rfl, rfl, rfl⟩).2.2.2 rfl

end Oflow
